import Mathlib

/-!
Verification of the OverDraft caching proxy core (server/app) against its
natural-language specification.

Shallow embedding conventions:
* Python dicts become association lists (`dictGet`/`dictSet`/`dictErase`
  mirror `d.get`, `d[k] = v`, `del d[k]`).
* Wall-clock time (`time.time()`) is passed explicitly as a rational `now`.
* `json.dumps(..., sort_keys=True, ensure_ascii=False)` is modelled by
  `dumps` over a `Json` tree with insertion-sorted object keys.
* `hashlib.sha256(...).hexdigest()` is kept abstract as a parameter
  `hash : String → String`; every property proved below holds for an
  arbitrary hash function, and witnesses instantiate it concretely.
-/

namespace OverDraft

/-! ## JSON values and `json.dumps(data, sort_keys=True, ensure_ascii=False)` -/

mutual

inductive Json where
  | str : String → Json
  | arr : JsonList → Json
  | obj : JsonObj → Json

inductive JsonList where
  | nil : JsonList
  | cons : Json → JsonList → JsonList

inductive JsonObj where
  | nil : JsonObj
  | cons : String → Json → JsonObj → JsonObj

end

/-- Hex digit character for a value below 16 (lowercase, as in Python). -/
def hexDigit (n : Nat) : Char :=
  if n < 10 then Char.ofNat (48 + n) else Char.ofNat (87 + n)

/-- Escape of one character inside a JSON string literal, following
`json.dumps` with `ensure_ascii=False`: quote, backslash and control
characters are escaped, everything else is kept verbatim. -/
def escapeChar (c : Char) : String :=
  if c = '"' then "\\\""
  else if c = '\\' then "\\\\"
  else if c = '\n' then "\\n"
  else if c = '\r' then "\\r"
  else if c = '\t' then "\\t"
  else if c = '\x08' then "\\b"
  else if c = '\x0c' then "\\f"
  else if c.toNat < 32 then
    "\\u00" ++ String.mk [hexDigit (c.toNat / 16), hexDigit (c.toNat % 16)]
  else String.mk [c]

/-- JSON string-literal escaping applied characterwise. -/
def jsonEscape (s : String) : String :=
  String.join (s.data.map escapeChar)

/-- Insert a key/value pair into an object sorted by key (ascending),
mirroring the effect of `sort_keys=True`. -/
def insertObj (k : String) (v : Json) : JsonObj → JsonObj
  | .nil => .cons k v .nil
  | .cons k' v' tl =>
    if k < k' then .cons k v (.cons k' v' tl) else .cons k' v' (insertObj k v tl)

/-- Sort an object's members by key (insertion sort), as `sort_keys=True` does. -/
def sortObj : JsonObj → JsonObj
  | .nil => .nil
  | .cons k v tl => insertObj k v (sortObj tl)

mutual

/-- Recursively sort every object in a JSON tree by key; serializing the
result in order is then exactly `json.dumps(..., sort_keys=True)`. -/
def sortJson : Json → Json
  | .str s => .str s
  | .arr xs => .arr (sortJsonList xs)
  | .obj kvs => .obj (sortObj (sortJsonObj kvs))

def sortJsonList : JsonList → JsonList
  | .nil => .nil
  | .cons x xs => .cons (sortJson x) (sortJsonList xs)

def sortJsonObj : JsonObj → JsonObj
  | .nil => .nil
  | .cons k v tl => .cons k (sortJson v) (sortJsonObj tl)

end

mutual

/-- Serialization of an already key-sorted tree following `json.dumps`
defaults: item separator `", "`, key separator `": "`. -/
def dumpsVal : Json → String
  | .str s => "\"" ++ jsonEscape s ++ "\""
  | .arr xs => "[" ++ dumpsElems xs ++ "]"
  | .obj kvs => "\x7b" ++ dumpsMembers kvs ++ "\x7d"

def dumpsElems : JsonList → String
  | .nil => ""
  | .cons x .nil => dumpsVal x
  | .cons x xs => dumpsVal x ++ ", " ++ dumpsElems xs

def dumpsMembers : JsonObj → String
  | .nil => ""
  | .cons k v .nil => "\"" ++ jsonEscape k ++ "\": " ++ dumpsVal v
  | .cons k v tl => "\"" ++ jsonEscape k ++ "\": " ++ dumpsVal v ++ ", " ++ dumpsMembers tl

end

/-- `json.dumps(data, sort_keys=True, ensure_ascii=False)`: sort all object
keys, then serialize with the default separators. -/
def dumps (j : Json) : String := dumpsVal (sortJson j)

/-- Convert a Lean list of JSON values into the embedded `JsonList`. -/
def jlist : List Json → JsonList
  | [] => .nil
  | x :: xs => .cons x (jlist xs)

/-- Convert a Lean association list into the embedded `JsonObj`
(declaration order; `dumps` sorts). -/
def jobj : List (String × Json) → JsonObj
  | [] => .nil
  | (k, v) :: xs => .cons k v (jobj xs)

/-! ## Data model shared by `cache.py` and `google_sheets.py` -/

/-- One sheet's value in the `sheets` dict of a cached spreadsheet:
`{"title": ..., "headers": [...], "data": [[...]]}`. -/
structure SheetData where
  title : String
  headers : List String
  data : List (List String)
deriving DecidableEq

/-- A whole-spreadsheet payload as stored in the cache:
`{"spreadsheetId": ..., "sheets": {gid: sheet}}`. -/
structure SpreadsheetData where
  spreadsheetId : String
  sheets : List (String × SheetData)
deriving DecidableEq

/-- `d.get(k)` on a Python dict modelled as an association list. -/
def dictGet {α : Type} : List (String × α) → String → Option α
  | [], _ => none
  | (k', v) :: tl, k => if k = k' then some v else dictGet tl k

/-- `d[k] = v` on a Python dict: replace an existing binding or append. -/
def dictSet {α : Type} : List (String × α) → String → α → List (String × α)
  | [], k, v => [(k, v)]
  | (k', v') :: tl, k, v =>
    if k = k' then (k, v) :: tl else (k', v') :: dictSet tl k v

/-- `del d[k]` on a Python dict. -/
def dictErase {α : Type} : List (String × α) → String → List (String × α)
  | [], _ => []
  | (k', v') :: tl, k => if k = k' then tl else (k', v') :: dictErase tl k

/-- JSON encoding of the per-sheet dict
`{"headers": sheet.get("headers", []), "data": sheet.get("data", [])}`
built in `SpreadsheetCache.get_sheet`. -/
def sheetContentJson (headers : List String) (data : List (List String)) : Json :=
  .obj (jobj
    [("headers", .arr (jlist (headers.map .str))),
     ("data", .arr (jlist (data.map fun r => .arr (jlist (r.map .str)))))])

/-- JSON encoding of one sheet's dict value. -/
def sheetJson (s : SheetData) : Json :=
  .obj (jobj
    [("title", .str s.title),
     ("headers", .arr (jlist (s.headers.map .str))),
     ("data", .arr (jlist (s.data.map fun r => .arr (jlist (r.map .str)))))])

/-- JSON encoding of the whole-spreadsheet dict passed to `set_spreadsheet`. -/
def spreadsheetJson (d : SpreadsheetData) : Json :=
  .obj (jobj
    [("spreadsheetId", .str d.spreadsheetId),
     ("sheets", .obj (jobj (d.sheets.map fun kv => (kv.1, sheetJson kv.2))))])

/-! ## `cache.py`: `SpreadsheetCache`, `CacheEntry`, `SheetCacheEntry` -/

/-- `CacheEntry` from `cache.py`: data, etag, absolute expiry time. -/
structure CacheEntry where
  data : SpreadsheetData
  etag : String
  expiresAt : ℚ
deriving DecidableEq

/-- `CacheEntry.is_expired`: `time.time() > self.expires_at`. -/
def CacheEntry.isExpired (e : CacheEntry) (now : ℚ) : Bool :=
  decide (e.expiresAt < now)

/-- `SheetCacheEntry` from `cache.py`: one sheet's view with its own ETag. -/
structure SheetCacheEntry where
  headers : List String
  data : List (List String)
  etag : String
deriving DecidableEq

/-- The cache's backing dict `spreadsheet_id -> CacheEntry`. -/
abbrev Cache := List (String × CacheEntry)

/-- The hexdigest slice `[:16]`, as a character-level prefix. -/
def takePrefix16 (s : String) : String :=
  String.mk (s.data.take 16)

/-- `SpreadsheetCache.compute_etag`: canonical key-sorted JSON dump,
hashed (`sha256` hexdigest, abstracted as `hash`), first 16 hex chars,
wrapped in double quotes. -/
def computeEtag (hash : String → String) (d : Json) : String :=
  "\"" ++ takePrefix16 (hash (dumps d)) ++ "\""

/-- `SpreadsheetCache.get_spreadsheet`: return the entry if present and not
expired; delete it (lazy eviction) and return `none` if expired. The updated
backing dict is returned alongside the result. -/
def getSpreadsheet (cache : Cache) (spreadsheetId : String) (now : ℚ) :
    Cache × Option CacheEntry :=
  match dictGet cache spreadsheetId with
  | none => (cache, none)
  | some e =>
    if e.isExpired now then (dictErase cache spreadsheetId, none)
    else (cache, some e)

/-- `SpreadsheetCache.set_spreadsheet`: store data with a fresh etag and
`expires_at = now + ttl`, returning the created entry. -/
def setSpreadsheet (hash : String → String) (cache : Cache)
    (spreadsheetId : String) (data : SpreadsheetData) (now ttl : ℚ) :
    Cache × CacheEntry :=
  let e : CacheEntry := ⟨data, computeEtag hash (spreadsheetJson data), now + ttl⟩
  (dictSet cache spreadsheetId e, e)

/-- `SpreadsheetCache.get_sheet`: look up the spreadsheet (with lazy expiry),
extract the sheet by gid, and compute a per-sheet ETag from the sheet's
headers and data only. -/
def getSheet (hash : String → String) (cache : Cache)
    (spreadsheetId gid : String) (now : ℚ) : Cache × Option SheetCacheEntry :=
  let p := getSpreadsheet cache spreadsheetId now
  match p.2 with
  | none => (p.1, none)
  | some e =>
    match dictGet e.data.sheets gid with
    | none => (p.1, none)
    | some sheet =>
      (p.1, some ⟨sheet.headers, sheet.data,
        computeEtag hash (sheetContentJson sheet.headers sheet.data)⟩)

/-! ## `metrics.py`: rolling-window counting -/

/-- Scan a timestamp sequence (already newest-first) counting entries
strictly newer than the cutoff, stopping at the first entry at or older
than the cutoff — the loop body of `Metrics._count_in_window`. -/
def countNewer (cutoff : ℚ) : List ℚ → Nat
  | [] => 0
  | t :: ts => if cutoff < t then countNewer cutoff ts + 1 else 0

/-- `Metrics._count_in_window`: `cutoff = now - window_seconds`, iterate the
buffer from newest to oldest (`reversed(timestamps)`), counting entries with
`t > cutoff` and breaking at the first other entry. -/
def countInWindow (timestamps : List ℚ) (windowSeconds : ℚ) (now : ℚ) : Nat :=
  countNewer (now - windowSeconds) timestamps.reverse

/-! ## `google_sheets.py`: response parsing (`_extract_rows`, `_parse_single_sheet`) -/

/-- One cell dict of the grid response; `formattedValue` may be absent or
null (both are modelled as `none` and both yield `""` in `_extract_rows`). -/
structure RawCell where
  formattedValue : Option String
deriving DecidableEq

/-- One entry of `rowData`: `{"values": [...]}`. -/
structure RawRow where
  values : List RawCell
deriving DecidableEq

/-- One entry of a sheet's `data`: `{"rowData": [...]}`. -/
structure RawGrid where
  rowData : List RawRow
deriving DecidableEq

/-- One entry of the response's `sheets` list, restricted to the `data`
field, the only one `_parse_single_sheet` reads. -/
structure RawSheet where
  data : List RawGrid
deriving DecidableEq

/-- The raw grid-data API response consumed by `_parse_single_sheet`. -/
structure RawData where
  sheets : List RawSheet
deriving DecidableEq

/-- `GoogleSheetsClient._extract_rows`: cell values with missing/null
`formattedValue` replaced by the empty string. -/
def extractRows (rowData : List RawRow) : List (List String) :=
  rowData.map fun r => r.values.map fun c => c.formattedValue.getD ""

/-- The parsed sheet dict returned by `_parse_single_sheet`. -/
structure ParsedSheet where
  spreadsheetId : String
  gid : String
  title : String
  headers : List String
  data : List (List String)
deriving DecidableEq

/-- `max((len(r) for r in data_rows), default=0)`. -/
def maxColsData (dataRows : List (List String)) : Nat :=
  dataRows.foldr (fun r m => max r.length m) 0

/-- The local `normalize_row` of `_parse_single_sheet`: right-pad with empty
strings up to `maxCols` (rows already at least that long are returned as is). -/
def normalizeRow (maxCols : Nat) (row : List String) : List String :=
  if row.length < maxCols then row ++ List.replicate (maxCols - row.length) "" else row

/-- `GoogleSheetsClient._parse_single_sheet`: first extracted row becomes the
headers, the rest become data, and every row is normalized to the maximum
observed column count; degenerate responses yield empty headers and data. -/
def parseSingleSheet (spreadsheetId gid title : String) (raw : RawData) : ParsedSheet :=
  match raw.sheets with
  | [] => ⟨spreadsheetId, gid, title, [], []⟩
  | sheet :: _ =>
    match sheet.data with
    | [] => ⟨spreadsheetId, gid, title, [], []⟩
    | grid :: _ =>
      match extractRows grid.rowData with
      | [] => ⟨spreadsheetId, gid, title, [], []⟩
      | headers :: dataRows =>
        let maxCols := max headers.length (maxColsData dataRows)
        ⟨spreadsheetId, gid, title, normalizeRow maxCols headers,
          dataRows.map (normalizeRow maxCols)⟩

/-! ## `google_sheets.py`: error taxonomy and fetch flow (`fetch_sheet`,
`_do_fetch_sheet`, `_get_sheet_name`) -/

/-- The `error_type` strings carried by `GoogleSheetsError`. -/
inductive GSErrorType where
  | CONFIG_ERROR
  | NOT_FOUND
  | NOT_PUBLISHED
  | RATE_LIMITED
  | NETWORK
  | API_ERROR
deriving DecidableEq

/-- `GoogleSheetsError(error_type, message, spreadsheet_id, gid)`. -/
structure GSError where
  errorType : GSErrorType
  message : String
  spreadsheetId : String
  gid : String
deriving DecidableEq

/-- Observable side effects of the fetch path, in order: rate-limiter
acquisition and upstream HTTP requests. -/
inductive Effect where
  | acquire
  | httpGet (url : String)
deriving DecidableEq

/-- Outcome of one upstream HTTP call: a transport failure
(`httpx.RequestError`) or a response with a status code and body. -/
inductive UpstreamResult (β : Type) where
  | transportError (msg : String)
  | response (status : Nat) (body : β)
deriving DecidableEq

/-- `https://sheets.googleapis.com/v4/spreadsheets`. -/
def BASE_URL : String := "https://sheets.googleapis.com/v4/spreadsheets"

/-- `httpx.Response.is_success`: status in [200, 300). -/
def isSuccess (status : Nat) : Bool := 200 ≤ status && status < 300

/-- The status checks performed identically after both upstream calls:
404, 403 and 429 map to typed errors, any other non-success status to the
generic API error, and a success status to no error. -/
def statusError (spreadsheetId gid : String) (status : Nat) : Option GSError :=
  if status = 404 then
    some ⟨.NOT_FOUND, "Spreadsheet not found", spreadsheetId, gid⟩
  else if status = 403 then
    some ⟨.NOT_PUBLISHED, "Spreadsheet is not public", spreadsheetId, gid⟩
  else if status = 429 then
    some ⟨.RATE_LIMITED, "Google API rate limit exceeded", spreadsheetId, gid⟩
  else if isSuccess status then none
  else some ⟨.API_ERROR, "Google API error: " ++ toString status, spreadsheetId, gid⟩

/-- `properties` dict of one sheet in the metadata response;
`get("sheetId", 0)` and `get("title", "Sheet")` defaults apply. -/
structure MetaProps where
  sheetId : Option Int
  title : Option String
deriving DecidableEq

/-- One entry of the metadata response's `sheets` list. -/
structure MetaSheet where
  properties : Option MetaProps
deriving DecidableEq

/-- Body of the metadata (fields-only) response. -/
structure MetaBody where
  sheets : List MetaSheet
deriving DecidableEq

/-- The gid-to-title mapping built by `_get_sheet_name` from the metadata
response. -/
def buildMapping (body : MetaBody) : List (String × String) :=
  body.sheets.foldl
    (fun m sheet =>
      let props := sheet.properties.getD ⟨none, none⟩
      dictSet m (toString (props.sheetId.getD 0)) (props.title.getD "Sheet"))
    []

/-- `GoogleSheetsClient._get_sheet_name`: serve from the metadata cache when
present (no effects); otherwise acquire the rate limiter, perform the
metadata request, map its status through the common checks and look the gid
up in the freshly built mapping. The metadata-cache write is not observable
here and is omitted. -/
def getSheetName (spreadsheetId gid : String)
    (cachedMeta : Option (List (String × String)))
    (metaResp : UpstreamResult MetaBody) :
    List Effect × Except GSError (Option String) :=
  match cachedMeta with
  | some mapping => ([], .ok (dictGet mapping gid))
  | none =>
    let effs := [Effect.acquire, Effect.httpGet (BASE_URL ++ "/" ++ spreadsheetId)]
    match metaResp with
    | .transportError msg =>
      (effs, .error ⟨.NETWORK, "Network error: " ++ msg, spreadsheetId, gid⟩)
    | .response status body =>
      match statusError spreadsheetId gid status with
      | some e => (effs, .error e)
      | none => (effs, .ok (dictGet (buildMapping body) gid))

/-- `GoogleSheetsClient._do_fetch_sheet`: resolve the sheet name (missing
name is the not-found error), then acquire the rate limiter, perform the
data request, map its status through the common checks and parse. -/
def doFetchSheet (spreadsheetId gid : String)
    (cachedMeta : Option (List (String × String)))
    (metaResp : UpstreamResult MetaBody) (dataResp : UpstreamResult RawData) :
    List Effect × Except GSError ParsedSheet :=
  match getSheetName spreadsheetId gid cachedMeta metaResp with
  | (effs, .error e) => (effs, .error e)
  | (effs, .ok none) =>
    (effs, .error ⟨.NOT_FOUND, "Sheet with gid=" ++ gid ++ " not found", spreadsheetId, gid⟩)
  | (effs, .ok (some sheetName)) =>
    let effs2 := effs ++ [Effect.acquire, Effect.httpGet (BASE_URL ++ "/" ++ spreadsheetId)]
    match dataResp with
    | .transportError msg =>
      (effs2, .error ⟨.NETWORK, "Network error: " ++ msg, spreadsheetId, gid⟩)
    | .response status body =>
      match statusError spreadsheetId gid status with
      | some e => (effs2, .error e)
      | none => (effs2, .ok (parseSingleSheet spreadsheetId gid sheetName body))

/-- `GoogleSheetsClient.fetch_sheet` for a single (uncoalesced) caller: the
missing-credential check precedes everything, producing the config error
with no effects at all; otherwise the fetch proceeds. -/
def fetchSheet (apiKey spreadsheetId gid : String)
    (cachedMeta : Option (List (String × String)))
    (metaResp : UpstreamResult MetaBody) (dataResp : UpstreamResult RawData) :
    List Effect × Except GSError ParsedSheet :=
  if apiKey = "" then
    ([], .error ⟨.CONFIG_ERROR, "Google API key not configured", spreadsheetId, gid⟩)
  else
    doFetchSheet spreadsheetId gid cachedMeta metaResp dataResp

/-! ## `google_sheets.py`: request coalescing (`fetch_sheet`, lines 177-190)

The coalescing code is cooperative (asyncio): between the membership test on
`_pending_requests` and the registration of the new task there is no await,
so a caller's entry step is atomic; a joiner resumes with the task's result;
the creator's resumption atomically takes the result and pops the key
(`finally`). We model one key. Producer outcomes are `Except GSError
ParsedSheet`, the type `_do_fetch_sheet` produces or raises. -/

/-- Outcome of one producer (`_do_fetch_sheet`) execution. -/
abbrev CoResult := Except GSError ParsedSheet

instance : DecidableEq CoResult := fun a b =>
  match a, b with
  | .error x, .error y =>
    if h : x = y then .isTrue (by rw [h]) else .isFalse (fun hc => h (Except.error.inj hc))
  | .ok x, .ok y =>
    if h : x = y then .isTrue (by rw [h]) else .isFalse (fun hc => h (Except.ok.inj hc))
  | .error _, .ok _ => .isFalse (fun hc => Except.noConfusion hc)
  | .ok _, .error _ => .isFalse (fun hc => Except.noConfusion hc)

/-- Control point of one caller coroutine inside `fetch_sheet`. -/
inductive CallerPhase where
  | start
  | waiting (t : Nat)
  | creator (t : Nat)
  | done (r : CoResult)
deriving DecidableEq

/-- Shared state for one coalescing key: the `_pending_requests` entry (task
id, if registered), the tasks created so far (`none` while the producer is
still running), and each caller's control point. One task in `tasks` is one
execution of the upstream-touching producer. -/
structure CoState where
  pending : Option Nat
  tasks : List (Option CoResult)
  callers : Nat → CallerPhase
  nCallers : Nat

/-- Scheduler actions: a caller executes its (atomic) entry section, a
running producer task completes with a result, or a suspended caller is
resumed by the event loop after its awaited task completed. -/
inductive CoAction where
  | enter (i : Nat)
  | finish (t : Nat) (r : CoResult)
  | resume (i : Nat)
deriving DecidableEq

/-- One scheduler step. Entry: if the key is registered the caller awaits the
in-flight task, otherwise it creates a fresh task and registers it (this is
the only point where a producer execution starts). Finish: a running task
records its result. Resume: a waiting caller takes the completed task's
result; a creator additionally pops the registration (the `finally` block).
Ill-timed actions leave the state unchanged. -/
def coStep (s : CoState) : CoAction → CoState
  | .enter i =>
    if i < s.nCallers ∧ s.callers i = .start then
      match s.pending with
      | some t => { s with callers := fun j => if j = i then .waiting t else s.callers j }
      | none =>
        { s with tasks := s.tasks ++ [none],
                 pending := some s.tasks.length,
                 callers := fun j => if j = i then .creator s.tasks.length else s.callers j }
    else s
  | .finish t r =>
    if s.tasks.get? t = some none then { s with tasks := s.tasks.set t (some r) }
    else s
  | .resume i =>
    match s.callers i with
    | .waiting t =>
      match s.tasks.get? t with
      | some (some r) => { s with callers := fun j => if j = i then .done r else s.callers j }
      | _ => s
    | .creator t =>
      match s.tasks.get? t with
      | some (some r) =>
        { s with callers := fun j => if j = i then .done r else s.callers j,
                 pending := none }
      | _ => s
    | _ => s

/-- Run a schedule of actions from a state. -/
def coRun (s : CoState) (sched : List CoAction) : CoState := sched.foldl coStep s

/-- Initial state: nothing registered, no task created, `n` callers about to
execute `fetch_sheet` for the same key. -/
def coInit (n : Nat) : CoState := ⟨none, [], fun _ => .start, n⟩

/-- Invariant of the burst's entry phase (after the first caller entered and
before anything completes): task 0 is registered and running, it is the only
task ever created, and every caller is either untouched or attached to it. -/
def burstInv (s : CoState) : Prop :=
  s.pending = some 0 ∧ s.tasks = [none] ∧
  ∀ i, s.callers i = .start ∨ s.callers i = .waiting 0 ∨ s.callers i = .creator 0

/-- Invariant of the burst's completion phase: exactly one task was ever
created, every caller is attached to task 0, and a finished caller holds
exactly the result recorded in task 0. -/
def tailInv (s : CoState) : Prop :=
  (∃ o, s.tasks = [o]) ∧
  (∀ i r, s.callers i = .done r → s.tasks = [some r]) ∧
  (∀ i t, s.callers i = .waiting t → t = 0) ∧
  (∀ i t, s.callers i = .creator t → t = 0)

theorem coRun_cons (s : CoState) (a : CoAction) (l : List CoAction) :
    coRun s (a :: l) = coRun (coStep s a) l := rfl

theorem coRun_append (s : CoState) (l1 l2 : List CoAction) :
    coRun s (l1 ++ l2) = coRun (coRun s l1) l2 := List.foldl_append ..

theorem burstInv_enter (s : CoState) (i : Nat) (h : burstInv s) :
    burstInv (coStep s (.enter i)) := by
  obtain ⟨hp, ht, hc⟩ := h
  simp only [coStep]
  by_cases hg : i < s.nCallers ∧ s.callers i = .start
  · rw [if_pos hg, hp]
    refine ⟨rfl, ht, fun j => ?_⟩
    by_cases hj : j = i
    · simp [hj]
    · simp only [if_neg hj]
      exact hc j
  · rw [if_neg hg]
    exact ⟨hp, ht, hc⟩

theorem burstInv_run (entries : List CoAction)
    (h : ∀ a ∈ entries, ∃ i, a = CoAction.enter i) :
    ∀ s : CoState, burstInv s → burstInv (coRun s entries) := by
  induction entries with
  | nil => exact fun s hs => hs
  | cons a l ih =>
    intro s hs
    obtain ⟨i, rfl⟩ := h a (List.mem_cons_self a l)
    rw [coRun_cons]
    exact ih (fun b hb => h b (List.mem_cons_of_mem _ hb)) _
      (burstInv_enter s i hs)

theorem tailInv_of_burstInv (s : CoState) (h : burstInv s) : tailInv s := by
  obtain ⟨hp, ht, hc⟩ := h
  refine ⟨⟨none, ht⟩, ?_, ?_, ?_⟩
  · intro i r hd
    rcases hc i with h1 | h1 | h1 <;> rw [h1] at hd <;> cases hd
  · intro i t hw
    rcases hc i with h1 | h1 | h1 <;> rw [h1] at hw <;> cases hw
    rfl
  · intro i t hcr
    rcases hc i with h1 | h1 | h1 <;> rw [h1] at hcr <;> cases hcr
    rfl

theorem tailInv_resumed (s : CoState) (i : Nat) (r : CoResult)
    (hT : s.tasks = [some r])
    (hdone : ∀ i r0, s.callers i = .done r0 → s.tasks = [some r0])
    (hwait : ∀ i t, s.callers i = .waiting t → t = 0)
    (hcreat : ∀ i t, s.callers i = .creator t → t = 0)
    (p : Option Nat) :
    tailInv ⟨p, s.tasks, fun j => if j = i then .done r else s.callers j, s.nCallers⟩ := by
  refine ⟨⟨some r, hT⟩, ?_, ?_, ?_⟩
  · intro j r0 hd
    dsimp only at hd ⊢
    by_cases hj : j = i
    · rw [if_pos hj] at hd
      cases hd
      exact hT
    · rw [if_neg hj] at hd
      exact hdone j r0 hd
  · intro j t0 hw
    dsimp only at hw
    by_cases hj : j = i
    · rw [if_pos hj] at hw
      cases hw
    · rw [if_neg hj] at hw
      exact hwait j t0 hw
  · intro j t0 hcr
    dsimp only at hcr
    by_cases hj : j = i
    · rw [if_pos hj] at hcr
      cases hcr
    · rw [if_neg hj] at hcr
      exact hcreat j t0 hcr

theorem tailInv_step (s : CoState) (a : CoAction)
    (hne : ∀ i, a ≠ CoAction.enter i) (h : tailInv s) : tailInv (coStep s a) := by
  obtain ⟨⟨o, hT⟩, hdone, hwait, hcreat⟩ := h
  cases a with
  | enter i => exact absurd rfl (hne i)
  | finish t r =>
    simp only [coStep]
    by_cases hg : s.tasks.get? t = some none
    · have ht0 : t = 0 ∧ o = none := by
        rw [hT] at hg
        cases t with
        | zero => exact ⟨rfl, by simpa using hg⟩
        | succ m => simp at hg
      obtain ⟨rfl, rfl⟩ := ht0
      rw [if_pos hg]
      refine ⟨⟨some r, by simp [hT]⟩, ?_, hwait, hcreat⟩
      intro i r0 hd
      have hcontra := hdone i r0 hd
      rw [hT] at hcontra
      cases hcontra
    · rw [if_neg hg]
      exact ⟨⟨o, hT⟩, hdone, hwait, hcreat⟩
  | resume i =>
    simp only [coStep]
    cases hci : s.callers i with
    | start => exact ⟨⟨o, hT⟩, hdone, hwait, hcreat⟩
    | done r => exact ⟨⟨o, hT⟩, hdone, hwait, hcreat⟩
    | waiting t =>
      cases hgt : s.tasks.get? t with
      | none =>
        simp only [hgt]
        exact ⟨⟨o, hT⟩, hdone, hwait, hcreat⟩
      | some ores =>
        cases ores with
        | none =>
          simp only [hgt]
          exact ⟨⟨o, hT⟩, hdone, hwait, hcreat⟩
        | some r =>
          simp only [hgt]
          have ht0 : t = 0 := hwait i t hci
          subst ht0
          have hor : o = some r := by
            rw [hT] at hgt
            simpa using hgt
          subst hor
          exact tailInv_resumed s i r hT hdone hwait hcreat s.pending
    | creator t =>
      cases hgt : s.tasks.get? t with
      | none =>
        simp only [hgt]
        exact ⟨⟨o, hT⟩, hdone, hwait, hcreat⟩
      | some ores =>
        cases ores with
        | none =>
          simp only [hgt]
          exact ⟨⟨o, hT⟩, hdone, hwait, hcreat⟩
        | some r =>
          simp only [hgt]
          have ht0 : t = 0 := hcreat i t hci
          subst ht0
          have hor : o = some r := by
            rw [hT] at hgt
            simpa using hgt
          subst hor
          exact tailInv_resumed s i r hT hdone hwait hcreat none

theorem tailInv_run (rest : List CoAction)
    (h : ∀ a ∈ rest, ∀ i, a ≠ CoAction.enter i) :
    ∀ s : CoState, tailInv s → tailInv (coRun s rest) := by
  induction rest with
  | nil => exact fun s hs => hs
  | cons a l ih =>
    intro s hs
    rw [coRun_cons]
    exact ih (fun b hb => h b (List.mem_cons_of_mem _ hb)) _
      (tailInv_step s a (h a (List.mem_cons_self a l)) hs)

theorem burstInv_first_enter (n i0 : Nat) (h0 : i0 < n) :
    burstInv (coStep (coInit n) (.enter i0)) := by
  have hg : i0 < (coInit n).nCallers ∧ (coInit n).callers i0 = .start :=
    ⟨h0, rfl⟩
  simp only [coStep, if_pos hg]
  refine ⟨rfl, rfl, fun i => ?_⟩
  by_cases hj : i = i0
  · simp [hj, coInit]
  · simp [hj, coInit]

/-- The error result used in the sequential/error-retry part of C4. -/
def errEx : GSError := ⟨.API_ERROR, "Rate limited", "D", "0"⟩

/-- The success result used in the sequential/error-retry part of C4. -/
def psEx : ParsedSheet := ⟨"D", "0", "Sheet1", ["Name"], [["Alice"]]⟩

/-- The sequential two-call schedule: the first call runs to completion
(producer fails) before the second call starts. -/
def seqSched : List CoAction :=
  [.enter 0, .finish 0 (.error errEx), .resume 0,
   .enter 1, .finish 1 (.ok psEx), .resume 1]

/-- C4: request coalescing is exactly-once per burst. First conjunct: for
every number of callers and every schedule in which some caller enters
first, an arbitrary further prefix of entry steps follows (any callers, in
any order), and only then do completions/resumptions happen, exactly one
producer task is ever created and any two callers that finished obtained
the same result. Second conjunct (sequential, non-overlapping calls on the
same key): the first call's producer fails, the error is delivered to that
caller but not cached, and the second call triggers a fresh producer
execution and receives its new result — two producer executions in total. -/
theorem C4_request_coalescing :
    (∀ (n i0 : Nat) (entries rest : List CoAction), i0 < n →
      (∀ a ∈ entries, ∃ i, a = CoAction.enter i) →
      (∀ a ∈ rest, ∀ i, a ≠ CoAction.enter i) →
      (coRun (coInit n) (CoAction.enter i0 :: (entries ++ rest))).tasks.length = 1 ∧
      ∀ i j ri rj,
        (coRun (coInit n) (CoAction.enter i0 :: (entries ++ rest))).callers i = .done ri →
        (coRun (coInit n) (CoAction.enter i0 :: (entries ++ rest))).callers j = .done rj →
        ri = rj) ∧
    ((coRun (coInit 2) seqSched).tasks = [some (.error errEx), some (.ok psEx)] ∧
     (coRun (coInit 2) seqSched).callers 0 = .done (.error errEx) ∧
     (coRun (coInit 2) seqSched).callers 1 = .done (.ok psEx)) := by
  constructor
  · intro n i0 entries rest h0 hent hrest
    have hfin : tailInv (coRun (coInit n) (CoAction.enter i0 :: (entries ++ rest))) := by
      rw [coRun_cons, coRun_append]
      exact tailInv_run rest hrest _
        (tailInv_of_burstInv _
          (burstInv_run entries hent _ (burstInv_first_enter n i0 h0)))
    obtain ⟨⟨o, hT⟩, hdone, _, _⟩ := hfin
    refine ⟨by rw [hT]; rfl, ?_⟩
    intro i j ri rj hi hj
    have h1 := hdone i ri hi
    have h2 := hdone j rj hj
    rw [h1] at h2
    simpa using h2
  · refine ⟨by decide, by decide, by decide⟩

/-- Witness for C4's burst part: five concrete concurrent callers — caller 0
enters first, callers 1-4 enter while the task is pending, then the producer
completes once and everyone resumes; exactly one producer execution and all
finished callers agree. -/
theorem C4_request_coalescing_witness :
    (coRun (coInit 5) (CoAction.enter 0 ::
      ([.enter 1, .enter 2, .enter 3, .enter 4] ++
       [.finish 0 (.ok psEx), .resume 0, .resume 1, .resume 2, .resume 3,
        .resume 4]))).tasks.length = 1 ∧
    ∀ i j ri rj,
      (coRun (coInit 5) (CoAction.enter 0 ::
        ([.enter 1, .enter 2, .enter 3, .enter 4] ++
         [.finish 0 (.ok psEx), .resume 0, .resume 1, .resume 2, .resume 3,
          .resume 4]))).callers i = .done ri →
      (coRun (coInit 5) (CoAction.enter 0 ::
        ([.enter 1, .enter 2, .enter 3, .enter 4] ++
         [.finish 0 (.ok psEx), .resume 0, .resume 1, .resume 2, .resume 3,
          .resume 4]))).callers j = .done rj →
      ri = rj :=
  C4_request_coalescing.1 5 0
    [.enter 1, .enter 2, .enter 3, .enter 4]
    [.finish 0 (.ok psEx), .resume 0, .resume 1, .resume 2, .resume 3, .resume 4]
    (by decide)
    (by intro a ha
        fin_cases ha
        · exact ⟨1, rfl⟩
        · exact ⟨2, rfl⟩
        · exact ⟨3, rfl⟩
        · exact ⟨4, rfl⟩)
    (by intro a ha i
        fin_cases ha <;> exact fun hcontra => CoAction.noConfusion hcontra)

/-! ## `google_sheets.py`: `RateLimiter` -/

/-- The eviction loop `while timestamps and now - timestamps[0] >
window_seconds: popleft()`: drop leading timestamps strictly older than the
window. -/
def evictOld (windowSeconds now : ℚ) (ts : List ℚ) : List ℚ :=
  ts.dropWhile (fun t => decide (windowSeconds < now - t))

/-- `RateLimiter.acquire` under exact-time semantics: the asyncio lock
serializes calls (and is held across the sleep), `asyncio.sleep(w)` advances
the clock by exactly `w`, and `time.time()` reads the clock. Input: the
recorded timestamp deque (oldest first) and the current time; output: the
updated deque and the time at which the call returns (the grant time).
The `[]` arm of the inner match is reachable only with `max_requests = 0`,
where CPython would raise `IndexError` on `timestamps[0]`. -/
def acquire (maxRequests : Nat) (windowSeconds : ℚ) (ts : List ℚ) (now : ℚ) :
    List ℚ × ℚ :=
  let ts1 := evictOld windowSeconds now ts
  if maxRequests ≤ ts1.length then
    match ts1 with
    | [] => (ts1 ++ [now], now)
    | t0 :: _ =>
      let wait := t0 + windowSeconds - now
      if 0 < wait then
        let now2 := now + wait
        (evictOld windowSeconds now2 ts1 ++ [now2], now2)
      else (ts1 ++ [now], now)
  else (ts1 ++ [now], now)

/-- `n` back-to-back `acquire` calls ("issued as fast as possible"): each
call starts at the instant the previous call returned. Returns the recorded
timestamps and the completion time of the last call. -/
def acquireBurst (maxRequests : Nat) (windowSeconds start : ℚ) : Nat → List ℚ × ℚ
  | 0 => ([], start)
  | n + 1 =>
    let p := acquireBurst maxRequests windowSeconds start n
    acquire maxRequests windowSeconds p.1 p.2

/-! ## `google_sheets.py` `_parse_rate_limit` and `config.py` `Settings` -/

/-- Value of a nonempty all-digit character sequence; `none` otherwise. -/
def digitsVal? (cs : List Char) : Option Nat :=
  match cs with
  | [] => none
  | _ =>
    cs.foldl
      (fun acc? c =>
        match acc? with
        | none => none
        | some acc => if c.isDigit then some (acc * 10 + (c.toNat - 48)) else none)
      (some 0)

/-- The ASCII whitespace characters `int()` strips. -/
def pyIsSpace (c : Char) : Bool :=
  c = ' ' || c = '\t' || c = '\n' || c = '\r' || c = '\x0b' || c = '\x0c'

/-- Strip leading and trailing whitespace. -/
def pyStrip (cs : List Char) : List Char :=
  ((cs.dropWhile pyIsSpace).reverse.dropWhile pyIsSpace).reverse

/-- Python `int(s)` on a decimal string: surrounding whitespace stripped,
optional sign, then digits; `none` models a raised `ValueError` (digit-group
underscores are not modelled). -/
def pyInt? (s : String) : Option Int :=
  match pyStrip s.data with
  | '+' :: cs => (digitsVal? cs).map Int.ofNat
  | '-' :: cs => (digitsVal? cs).map (fun n => -(n : Int))
  | cs => (digitsVal? cs).map Int.ofNat

/-- Python `s.split("/")` (single-character separator, no maxsplit). -/
def splitOnSlashAux : List Char → List (List Char)
  | [] => [[]]
  | c :: cs =>
    match splitOnSlashAux cs with
    | [] => [[]]
    | acc :: accs => if c = '/' then [] :: acc :: accs else (c :: acc) :: accs

/-- Python `s.split("/")` on a string. -/
def splitOnSlash (s : String) : List String :=
  (splitOnSlashAux s.data).map String.mk

/-- ASCII lowercasing of one character (`str.lower` restricted to ASCII). -/
def pyLowerChar (c : Char) : Char :=
  if 'A' ≤ c ∧ c ≤ 'Z' then Char.ofNat (c.toNat + 32) else c

/-- ASCII `str.lower`. -/
def pyLower (s : String) : String :=
  String.mk (s.data.map pyLowerChar)

/-- The `period_seconds` dict lookup with its `.get(..., 60.0)` default. -/
def periodSeconds (period : String) : ℚ :=
  if period = "second" then 1
  else if period = "minute" then 60
  else if period = "hour" then 3600
  else 60

/-- `GoogleSheetsClient._parse_rate_limit`: split on `/`, parse the count
with `int()`, look up the lowercased period (defaulting to 60 seconds); a
`ValueError` (not exactly two parts, or a non-integer count) yields the
default `(60, 60.0)`. -/
def parseRateLimit (rateLimit : String) : Int × ℚ :=
  match splitOnSlash rateLimit with
  | [countStr, period] =>
    match pyInt? countStr with
    | some count => (count, periodSeconds (pyLower period))
    | none => (60, 60)
  | _ => (60, 60)

/-- The field names declared by `config.py`'s `Settings` class. -/
def settingsFieldNames : List String :=
  ["google_api_key", "cache_ttl", "host", "port", "debug", "cors_origins", "rate_limit"]

/-- The rate-limit part of `GoogleSheetsClient.__init__`: it evaluates
`self.settings.google_rate_limit` (pydantic raises `AttributeError` for a
field the model does not declare) and only then calls `_parse_rate_limit`,
whose try/except does not cover the attribute access. `getValue` abstracts
the value a declared field would yield. -/
def clientInitRateLimit (getValue : String → String) : Except String (Int × ℚ) :=
  if settingsFieldNames.contains "google_rate_limit" then
    .ok (parseRateLimit (getValue "google_rate_limit"))
  else
    .error "AttributeError: google_rate_limit"

/-! ## `main.py` `periodic_cleanup` and `api/config.py`
`cleanup_expired_configs` -/

/-- One stored shared-config file: its parsed `expiresAt`, or `none` when
the file fails to parse (invalid JSON / bad timestamp), which
`cleanup_expired_configs` also deletes. -/
structure ConfigFile where
  guid : String
  expiresAt : Option ℚ
deriving DecidableEq

/-- `cleanup_expired_configs`: remove files with `expires_at < now` and
unparseable files; return the surviving store and the removal count. -/
def cleanupExpiredConfigs (store : List ConfigFile) (now : ℚ) :
    List ConfigFile × Nat :=
  let keep := store.filter fun c =>
    match c.expiresAt with
    | some e => decide (¬ e < now)
    | none => false
  (keep, store.length - keep.length)

/-- Observable effects of one background-loop cycle. The
`upstreamFetch`/`cacheWrite` constructors exist so that their absence from
the loop's effect trace is expressible. -/
inductive CycleEffect where
  | runCleanup
  | logRemoved (count : Nat)
  | logError (msg : String)
  | upstreamFetch (documentId : String) (tables : List String)
  | cacheWrite (documentId gid : String)
  | sleepFor (seconds : ℚ)
deriving DecidableEq

/-- The body of the `while True` loop of `periodic_cleanup` in `main.py`:
inside `try`, run the expired-config cleanup and print when anything was
removed; `except Exception as e` prints the error instead; either way the
body falls through to `await asyncio.sleep(3600)`. `fault` injects the
exception the cleanup call raises (`none` for a normal run); on a fault the
removal count never materializes, the error is logged and the cycle still
ends with its sleep. The store is returned unchanged on a fault (a
mid-cleanup partial deletion is not modelled; no theorem below constrains
the fault-path store). -/
def periodicCleanupCycle (store : List ConfigFile) (now : ℚ)
    (fault : Option String) : List ConfigFile × List CycleEffect :=
  match fault with
  | none =>
    let p := cleanupExpiredConfigs store now
    (p.1,
      [CycleEffect.runCleanup] ++
      (if 0 < p.2 then [CycleEffect.logRemoved p.2] else []) ++
      [CycleEffect.sleepFor 3600])
  | some msg =>
    (store,
      [CycleEffect.runCleanup, CycleEffect.logError msg, CycleEffect.sleepFor 3600])

/-! ## `api/sheets.py`: `to_csv` and the `get_sheet` endpoint, with the
legacy `GoogleSheetsClient.fetch_spreadsheet` its miss path calls -/

/-- Join strings with a separator (`sep.join(parts)`). -/
def joinSep (sep : String) : List String → String
  | [] => ""
  | [x] => x
  | x :: xs => x ++ sep ++ joinSep sep xs

/-- `to_csv`'s `escape_field`: quote fields containing a comma, quote or
newline, doubling embedded quotes (`f.replace('"', '""')` character by
character). -/
def escapeField (f : String) : String :=
  if f.data.any (fun c => c = '"' || c = ',' || c = '\n' || c = '\r') then
    "\"" ++ String.join (f.data.map fun c =>
      if c = '"' then "\"\"" else String.mk [c]) ++ "\""
  else f

/-- `to_csv`: the header line followed by one line per data row. -/
def toCsv (headers : List String) (data : List (List String)) : String :=
  joinSep "\n"
    (joinSep "," (headers.map escapeField) ::
      data.map fun row => joinSep "," (row.map escapeField))

/-- The responses the endpoint produces on the modelled paths. -/
inductive EndpointResponse where
  | ok (body etag : String)
  | notModified (etag : String)
  | notFound (detail : String)
deriving DecidableEq

/-- `GoogleSheetsClient.fetch_spreadsheet` (the legacy method the endpoint's
miss path still calls): it resolves only the gid-to-title metadata mapping
and returns every sheet with EMPTY headers and data — it never fetches cell
content. -/
def fetchSpreadsheet (spreadsheetId : String)
    (metaMapping : List (String × String)) : SpreadsheetData :=
  ⟨spreadsheetId, metaMapping.map fun kv => (kv.1, ⟨kv.2, [], []⟩)⟩

/-- `GoogleSheetsClient.get_sheet_from_spreadsheet`: extract one sheet's
dict from a spreadsheet payload. -/
def getSheetFromSpreadsheet (d : SpreadsheetData) (gid : String) :
    Option SheetData :=
  dictGet d.sheets gid

/-- The conditional-request check `if if_none_match and if_none_match ==
etag` (an absent or empty header never matches). -/
def etagMatches (ifNoneMatch : Option String) (etag : String) : Bool :=
  match ifNoneMatch with
  | none => false
  | some s => if s = "" then false else decide (s = etag)

/-- The `/api/sheets` handler `get_sheet` (validation, metrics and error
mapping aside): on a cache hit, 304 when the caller's ETag matches,
otherwise the cached sheet as CSV; on a miss, call the legacy
`fetch_spreadsheet`, store its result, extract the requested sheet (404 when
the gid is unknown), compute the per-sheet ETag and respond. -/
def endpointGetSheet (hash : String → String)
    (metaMapping : List (String × String)) (cache : Cache)
    (spreadsheetId gid : String) (ifNoneMatch : Option String) (now ttl : ℚ) :
    Cache × EndpointResponse :=
  let pc := getSheet hash cache spreadsheetId gid now
  match pc.2 with
  | some cached =>
    if etagMatches ifNoneMatch cached.etag then
      (pc.1, .notModified cached.etag)
    else
      (pc.1, .ok (toCsv cached.headers cached.data) cached.etag)
  | none =>
    let data := fetchSpreadsheet spreadsheetId metaMapping
    let pset := setSpreadsheet hash pc.1 spreadsheetId data now ttl
    match getSheetFromSpreadsheet data gid with
    | none =>
      (pset.1, .notFound ("Sheet with gid=" ++ gid ++ " not found in spreadsheet"))
    | some sheet =>
      let sheetEtag := computeEtag hash (sheetContentJson sheet.headers sheet.data)
      if etagMatches ifNoneMatch sheetEtag then
        (pset.1, .notModified sheetEtag)
      else
        (pset.1, .ok (toCsv sheet.headers sheet.data) sheetEtag)

/-! ## Theorems for C3, C9, C10 -/

theorem isExpired_false_of_le {e : CacheEntry} {now : ℚ} (h : now ≤ e.expiresAt) :
    e.isExpired now = false := by
  simp [CacheEntry.isExpired, not_lt.mpr h]

theorem isExpired_true_of_lt {e : CacheEntry} {now : ℚ} (h : e.expiresAt < now) :
    e.isExpired now = true := by
  simp [CacheEntry.isExpired, h]

/-- C3 (amended): for an entry stored in the cache, `get_spreadsheet` returns
the entry whenever `now <= expires_at` (the expiry test `time.time() >
expires_at` is strict, so the entry is still served at the exact expiry
instant), and whenever `now > expires_at` it removes the entry from the
backing dict and returns absent (lazy eviction). -/
theorem C3_ttl_expiry_lazy_eviction (cache : Cache) (id : String)
    (e : CacheEntry) (now : ℚ) (h : dictGet cache id = some e) :
    (now ≤ e.expiresAt → getSpreadsheet cache id now = (cache, some e)) ∧
    (e.expiresAt < now → getSpreadsheet cache id now = (dictErase cache id, none)) := by
  constructor
  · intro hle
    simp [getSpreadsheet, h, isExpired_false_of_le hle]
  · intro hlt
    simp [getSpreadsheet, h, isExpired_true_of_lt hlt]

/-- Concrete entry used to exercise C3: expiry time 10. -/
def entryW : CacheEntry :=
  ⟨⟨"D", [("0", ⟨"Sheet1", ["Name"], [["Alice"]]⟩)]⟩, "\"etag\"", 10⟩

/-- Concrete one-entry cache used to exercise C3. -/
def cacheW : Cache := [("doc", entryW)]

/-- Witness for C3: at `now = 3 < 10` the entry is returned unchanged, and at
`now = 12 > 10` the lookup evicts the entry and returns absent. -/
theorem C3_ttl_expiry_lazy_eviction_witness :
    getSpreadsheet cacheW "doc" 3 = (cacheW, some entryW) ∧
    getSpreadsheet cacheW "doc" 12 = (dictErase cacheW "doc", none) :=
  ⟨(C3_ttl_expiry_lazy_eviction cacheW "doc" entryW 3 (by decide)).1 (by norm_num [entryW]),
   (C3_ttl_expiry_lazy_eviction cacheW "doc" entryW 12 (by decide)).2 (by norm_num [entryW])⟩

/-- Counterexample to C3 as stated: the claim demands that `get` return
absent whenever `now >= expiry`, but at `now` exactly equal to the entry's
expiry time (10) the code's strict test `time.time() > expires_at` is false
and the entry is returned. -/
theorem C3_boundary_counterexample :
    entryW.expiresAt ≤ 10 ∧ (getSpreadsheet cacheW "doc" 10).2 = some entryW := by
  constructor
  · norm_num [entryW]
  · simp [getSpreadsheet, cacheW, entryW, dictGet, CacheEntry.isExpired]

/-- C9: the fingerprint `get_sheet` serves for a table is computed from that
table's headers and data rows only: whenever two (possibly different) cached
documents both contain table `gid` with equal headers and equal data rows —
titles, sibling tables and everything else free to differ — both lookups
succeed and return entries carrying the same ETag, for every hash function. -/
theorem C9_per_table_fingerprint_independence
    (hash : String → String) (c1 c2 : Cache) (id1 id2 gid : String)
    (now1 now2 : ℚ) (e1 e2 : CacheEntry) (s1 s2 : SheetData)
    (h1 : dictGet c1 id1 = some e1) (h2 : e1.isExpired now1 = false)
    (h3 : dictGet e1.data.sheets gid = some s1)
    (h4 : dictGet c2 id2 = some e2) (h5 : e2.isExpired now2 = false)
    (h6 : dictGet e2.data.sheets gid = some s2)
    (hh : s1.headers = s2.headers) (hd : s1.data = s2.data) :
    ∃ r1 r2 : SheetCacheEntry,
      (getSheet hash c1 id1 gid now1).2 = some r1 ∧
      (getSheet hash c2 id2 gid now2).2 = some r2 ∧
      r1.etag = r2.etag := by
  refine ⟨⟨s1.headers, s1.data, computeEtag hash (sheetContentJson s1.headers s1.data)⟩,
         ⟨s2.headers, s2.data, computeEtag hash (sheetContentJson s2.headers s2.data)⟩,
         ?_, ?_, ?_⟩
  · simp [getSheet, getSpreadsheet, h1, h2, h3]
  · simp [getSheet, getSpreadsheet, h4, h5, h6]
  · simp [hh, hd]

/-- First document used in the C9 witness: table "0" plus a sibling table. -/
def docA : SpreadsheetData :=
  ⟨"DA", [("0", ⟨"Players", ["Name"], [["Alice"]]⟩),
          ("7", ⟨"Teams", ["Team"], [["Red"]]⟩)]⟩

/-- Second document used in the C9 witness: same content for table "0"
under a different title, different sibling tables. -/
def docB : SpreadsheetData :=
  ⟨"DB", [("0", ⟨"Roster", ["Name"], [["Alice"]]⟩),
          ("9", ⟨"Scores", ["Pts"], [["3"], ["4"]]⟩)]⟩

/-- Witness for C9: two concrete caches holding `docA` and `docB`, which
agree on table "0" content but differ elsewhere, yield the same served ETag
(hash instantiated with the identity function). -/
theorem C9_per_table_fingerprint_independence_witness :
    ∃ r1 r2 : SheetCacheEntry,
      (getSheet (fun s => s) [("DA", ⟨docA, "\"ea\"", 50⟩)] "DA" "0" 10).2 = some r1 ∧
      (getSheet (fun s => s) [("DB", ⟨docB, "\"eb\"", 90⟩)] "DB" "0" 20).2 = some r2 ∧
      r1.etag = r2.etag :=
  C9_per_table_fingerprint_independence (fun s => s)
    [("DA", ⟨docA, "\"ea\"", 50⟩)] [("DB", ⟨docB, "\"eb\"", 90⟩)]
    "DA" "DB" "0" 10 20 ⟨docA, "\"ea\"", 50⟩ ⟨docB, "\"eb\"", 90⟩
    ⟨"Players", ["Name"], [["Alice"]]⟩ ⟨"Roster", ["Name"], [["Alice"]]⟩
    (by decide) (by decide) (by decide) (by decide) (by decide) (by decide)
    (by decide) (by decide)

theorem countNewer_eq_countP (cutoff : ℚ) (l : List ℚ)
    (h : List.Sorted (· ≥ ·) l) :
    countNewer cutoff l = l.countP (fun t => decide (cutoff < t)) := by
  induction l with
  | nil => rfl
  | cons t ts ih =>
    rcases List.sorted_cons.mp h with ⟨hall, hts⟩
    by_cases hc : cutoff < t
    · simp [countNewer, hc, List.countP_cons, ih hts]
    · have hz : ts.countP (fun t => decide (cutoff < t)) = 0 := by
        apply List.countP_eq_zero.mpr
        intro a ha
        have : a ≤ t := hall a ha
        simp only [decide_eq_true_eq]
        exact fun hlt => hc (lt_of_lt_of_le hlt this)
      simp [countNewer, hc, List.countP_cons, hz]

/-- C10: for every timestamp buffer in non-decreasing time order, the
backward scan with early exit used by `_count_in_window` returns exactly the
number of entries strictly newer than the cutoff `now - windowSeconds`. -/
theorem C10_metrics_rolling_window_count (timestamps : List ℚ)
    (windowSeconds now : ℚ) (hs : List.Sorted (· ≤ ·) timestamps) :
    countInWindow timestamps windowSeconds now =
      timestamps.countP (fun t => decide (now - windowSeconds < t)) := by
  have hrev : List.Sorted (· ≥ ·) timestamps.reverse :=
    List.pairwise_reverse.mpr hs
  calc countInWindow timestamps windowSeconds now
      = timestamps.reverse.countP (fun t => decide (now - windowSeconds < t)) :=
        countNewer_eq_countP _ _ hrev
    _ = timestamps.countP (fun t => decide (now - windowSeconds < t)) := by
        simp [List.countP_eq_length_filter]

/-- Witness for C10: buffer `[1, 3, 5, 9]` (sorted), window 4 ending at
`now = 10`, cutoff 6: exactly one entry (9) is newer than the cutoff. -/
theorem C10_metrics_rolling_window_count_witness :
    countInWindow [1, 3, 5, 9] 4 10 = 1 :=
  (C10_metrics_rolling_window_count [1, 3, 5, 9] 4 10 (by norm_num)).trans (by norm_num)

/-! ## Theorems for C8 and C7 -/

theorem normalizeRow_eq_append (maxCols : Nat) (row : List String) :
    normalizeRow maxCols row = row ++ List.replicate (maxCols - row.length) "" := by
  unfold normalizeRow
  split
  · rfl
  · next h =>
    have : maxCols - row.length = 0 := Nat.sub_eq_zero_of_le (not_lt.mp h)
    simp [this]

theorem length_normalizeRow (maxCols : Nat) (row : List String)
    (h : row.length ≤ maxCols) : (normalizeRow maxCols row).length = maxCols := by
  rw [normalizeRow_eq_append, List.length_append, List.length_replicate]
  omega

theorem length_le_maxColsData {r : List String} {rs : List (List String)}
    (h : r ∈ rs) : r.length ≤ maxColsData rs := by
  induction rs with
  | nil => cases h
  | cons x xs ih =>
    rcases List.mem_cons.mp h with rfl | h'
    · show r.length ≤ max r.length (maxColsData xs)
      exact Nat.le_max_left _ _
    · show r.length ≤ max x.length (maxColsData xs)
      exact le_trans (ih h') (Nat.le_max_right _ _)

/-- C8: whenever the grid response yields at least one extracted row, the
first row becomes the headers and the rest become the data, every output row
(headers included) is the corresponding input row right-padded with empty
strings, and all output rows have length exactly the maximum observed column
count across the whole table. -/
theorem C8_row_normalization (spreadsheetId gid title : String) (raw : RawData)
    (sheet : RawSheet) (rest1 : List RawSheet) (grid : RawGrid)
    (rest2 : List RawGrid) (headers : List String) (dataRows : List (List String))
    (hS : raw.sheets = sheet :: rest1) (hG : sheet.data = grid :: rest2)
    (hR : extractRows grid.rowData = headers :: dataRows) :
    (parseSingleSheet spreadsheetId gid title raw).headers =
      headers ++ List.replicate (max headers.length (maxColsData dataRows) - headers.length) "" ∧
    (parseSingleSheet spreadsheetId gid title raw).data =
      dataRows.map (fun r =>
        r ++ List.replicate (max headers.length (maxColsData dataRows) - r.length) "") ∧
    ∀ r ∈ (parseSingleSheet spreadsheetId gid title raw).headers ::
        (parseSingleSheet spreadsheetId gid title raw).data,
      r.length = max headers.length (maxColsData dataRows) := by
  have hp : parseSingleSheet spreadsheetId gid title raw =
      ⟨spreadsheetId, gid, title,
        normalizeRow (max headers.length (maxColsData dataRows)) headers,
        dataRows.map (normalizeRow (max headers.length (maxColsData dataRows)))⟩ := by
    simp only [parseSingleSheet, hS, hG, hR]
  rw [hp]
  refine ⟨normalizeRow_eq_append _ _, ?_, ?_⟩
  · simp only [List.map_inj_left]
    intro r _
    exact normalizeRow_eq_append _ _
  · intro r hr
    rcases List.mem_cons.mp hr with h | h
    · subst h
      exact length_normalizeRow _ _ (Nat.le_max_left _ _)
    · rcases List.mem_map.mp h with ⟨r0, hr0, rfl⟩
      exact length_normalizeRow _ _
        (le_trans (length_le_maxColsData hr0) (Nat.le_max_right _ _))

/-- Cell with a present formatted value. -/
def rcell (s : String) : RawCell := ⟨some s⟩

/-- Concrete grid response used in the C8 witness: rows of lengths 3, 1, 2. -/
def rawC8 : RawData :=
  ⟨[⟨[⟨[⟨[rcell "A", rcell "B", rcell "C"]⟩, ⟨[rcell "1"]⟩,
       ⟨[rcell "X", rcell "Y"]⟩]⟩]⟩]⟩

/-- Witness for C8: input rows of lengths [3, 1, 2] under a 3-column header
normalize to rows of exactly 3 cells each, missing cells filled with `""`. -/
theorem C8_row_normalization_witness :
    (parseSingleSheet "S" "0" "T" rawC8).headers = ["A", "B", "C"] ∧
    (parseSingleSheet "S" "0" "T" rawC8).data = [["1", "", ""], ["X", "Y", ""]] ∧
    ∀ r ∈ (parseSingleSheet "S" "0" "T" rawC8).headers ::
        (parseSingleSheet "S" "0" "T" rawC8).data, r.length = 3 := by
  have h := C8_row_normalization "S" "0" "T" rawC8
    ⟨[⟨[⟨[rcell "A", rcell "B", rcell "C"]⟩, ⟨[rcell "1"]⟩, ⟨[rcell "X", rcell "Y"]⟩]⟩]⟩
    [] ⟨[⟨[rcell "A", rcell "B", rcell "C"]⟩, ⟨[rcell "1"]⟩, ⟨[rcell "X", rcell "Y"]⟩]⟩
    [] ["A", "B", "C"] [["1"], ["X", "Y"]] rfl rfl (by decide)
  refine ⟨h.1.trans (by decide), h.2.1.trans (by decide), ?_⟩
  intro r hr
  exact (h.2.2 r hr).trans (by decide)

/-- C7: the upstream error taxonomy of the fetch path. With a configured
credential and a resolvable sheet name, the data request's outcome maps as
follows: status 404 to the not-found error, 403 to the not-public error,
429 to the rate-limited error, a transport failure to the network error,
and any other non-success status to the generic API error. With a missing
credential the config error is raised with an empty effect trace: no
rate-limiter acquisition and no HTTP request is ever attempted. -/
theorem C7_error_taxonomy (apiKey spreadsheetId gid sheetName : String)
    (mapping : List (String × String)) (hk : ¬ apiKey = "")
    (hm : dictGet mapping gid = some sheetName) :
    (∀ (metaResp : UpstreamResult MetaBody) (dataResp : UpstreamResult RawData),
      fetchSheet "" spreadsheetId gid none metaResp dataResp =
        ([], .error ⟨.CONFIG_ERROR, "Google API key not configured", spreadsheetId, gid⟩)) ∧
    (∀ (metaResp : UpstreamResult MetaBody) (body : RawData),
      fetchSheet apiKey spreadsheetId gid (some mapping) metaResp (.response 404 body) =
        ([.acquire, .httpGet (BASE_URL ++ "/" ++ spreadsheetId)],
         .error ⟨.NOT_FOUND, "Spreadsheet not found", spreadsheetId, gid⟩)) ∧
    (∀ (metaResp : UpstreamResult MetaBody) (body : RawData),
      fetchSheet apiKey spreadsheetId gid (some mapping) metaResp (.response 403 body) =
        ([.acquire, .httpGet (BASE_URL ++ "/" ++ spreadsheetId)],
         .error ⟨.NOT_PUBLISHED, "Spreadsheet is not public", spreadsheetId, gid⟩)) ∧
    (∀ (metaResp : UpstreamResult MetaBody) (body : RawData),
      fetchSheet apiKey spreadsheetId gid (some mapping) metaResp (.response 429 body) =
        ([.acquire, .httpGet (BASE_URL ++ "/" ++ spreadsheetId)],
         .error ⟨.RATE_LIMITED, "Google API rate limit exceeded", spreadsheetId, gid⟩)) ∧
    (∀ (metaResp : UpstreamResult MetaBody) (msg : String),
      fetchSheet apiKey spreadsheetId gid (some mapping) metaResp (.transportError msg) =
        ([.acquire, .httpGet (BASE_URL ++ "/" ++ spreadsheetId)],
         .error ⟨.NETWORK, "Network error: " ++ msg, spreadsheetId, gid⟩)) ∧
    (∀ (metaResp : UpstreamResult MetaBody) (body : RawData) (status : Nat),
      ¬ status = 404 → ¬ status = 403 → ¬ status = 429 → isSuccess status = false →
      fetchSheet apiKey spreadsheetId gid (some mapping) metaResp (.response status body) =
        ([.acquire, .httpGet (BASE_URL ++ "/" ++ spreadsheetId)],
         .error ⟨.API_ERROR, "Google API error: " ++ toString status, spreadsheetId, gid⟩)) := by
  refine ⟨?_, ?_, ?_, ?_, ?_, ?_⟩
  · intro metaResp dataResp
    simp [fetchSheet]
  · intro metaResp body
    simp [fetchSheet, hk, doFetchSheet, getSheetName, hm, statusError]
  · intro metaResp body
    simp [fetchSheet, hk, doFetchSheet, getSheetName, hm, statusError]
  · intro metaResp body
    simp [fetchSheet, hk, doFetchSheet, getSheetName, hm, statusError]
  · intro metaResp msg
    simp [fetchSheet, hk, doFetchSheet, getSheetName, hm]
  · intro metaResp body status h4 h3 h9 hs
    simp [fetchSheet, hk, doFetchSheet, getSheetName, hm, statusError, h4, h3, h9, hs]

/-- Witness for C7: concrete instantiations of every branch of the taxonomy,
including status 500 for the generic API error and the credential-missing
case with its empty effect trace. -/
theorem C7_error_taxonomy_witness :
    fetchSheet "" "D" "0" none (.response 200 ⟨[]⟩) (.response 200 ⟨[]⟩) =
      ([], .error ⟨.CONFIG_ERROR, "Google API key not configured", "D", "0"⟩) ∧
    fetchSheet "k" "D" "0" (some [("0", "Sheet1")]) (.response 200 ⟨[]⟩) (.response 404 ⟨[]⟩) =
      ([.acquire, .httpGet (BASE_URL ++ "/" ++ "D")],
       .error ⟨.NOT_FOUND, "Spreadsheet not found", "D", "0"⟩) ∧
    fetchSheet "k" "D" "0" (some [("0", "Sheet1")]) (.response 200 ⟨[]⟩) (.response 403 ⟨[]⟩) =
      ([.acquire, .httpGet (BASE_URL ++ "/" ++ "D")],
       .error ⟨.NOT_PUBLISHED, "Spreadsheet is not public", "D", "0"⟩) ∧
    fetchSheet "k" "D" "0" (some [("0", "Sheet1")]) (.response 200 ⟨[]⟩) (.response 429 ⟨[]⟩) =
      ([.acquire, .httpGet (BASE_URL ++ "/" ++ "D")],
       .error ⟨.RATE_LIMITED, "Google API rate limit exceeded", "D", "0"⟩) ∧
    fetchSheet "k" "D" "0" (some [("0", "Sheet1")]) (.response 200 ⟨[]⟩) (.transportError "boom") =
      ([.acquire, .httpGet (BASE_URL ++ "/" ++ "D")],
       .error ⟨.NETWORK, "Network error: " ++ "boom", "D", "0"⟩) ∧
    fetchSheet "k" "D" "0" (some [("0", "Sheet1")]) (.response 200 ⟨[]⟩) (.response 500 ⟨[]⟩) =
      ([.acquire, .httpGet (BASE_URL ++ "/" ++ "D")],
       .error ⟨.API_ERROR, "Google API error: " ++ toString 500, "D", "0"⟩) := by
  have h := C7_error_taxonomy "k" "D" "0" "Sheet1" [("0", "Sheet1")]
    (by decide) (by decide)
  exact ⟨h.1 _ _, h.2.1 _ _, h.2.2.1 _ _, h.2.2.2.1 _ _, h.2.2.2.2.1 _ _,
    h.2.2.2.2.2 _ _ 500 (by decide) (by decide) (by decide) (by decide)⟩

/-! ## Theorems for C2, C5, C6, C1 -/

/-- Counterexample to C2 as stated: with 3 requests per 100 ms window, six
`acquire` calls issued as fast as possible complete at time 100 — one full
window after the start, strictly less than the claimed at-least-two full
window waits (~200 ms). -/
theorem C2_rate_limiter_counterexample :
    (acquireBurst 3 100 0 6).2 = 100 ∧ (acquireBurst 3 100 0 6).2 < 200 := by
  constructor <;> norm_num [acquireBurst, acquire, evictOld]

/-- C2 (amended): when the limiter is at capacity — after eviction at least
`maxRequests` grants remain recorded, the oldest being `t0` — the next
grant is issued no earlier than one full window after `t0`; consequently,
with 3 per 100 ms, six back-to-back `acquire` calls record grants at times
0, 0, 0, 100, 100, 100 and complete after exactly one full window wait. -/
theorem C2_rate_limiter_window_wait (maxRequests : Nat) (windowSeconds : ℚ)
    (ts : List ℚ) (now t0 : ℚ) (rest : List ℚ)
    (he : evictOld windowSeconds now ts = t0 :: rest)
    (hfull : maxRequests ≤ (t0 :: rest).length) :
    t0 + windowSeconds ≤ (acquire maxRequests windowSeconds ts now).2 ∧
    (acquireBurst 3 100 0 6).1 = [0, 0, 0, 100, 100, 100] ∧
    (acquireBurst 3 100 0 6).2 = 100 := by
  refine ⟨?_, by norm_num [acquireBurst, acquire, evictOld],
    by norm_num [acquireBurst, acquire, evictOld]⟩
  simp only [acquire, he]
  rw [if_pos hfull]
  by_cases hw : (0 : ℚ) < t0 + windowSeconds - now
  · rw [if_pos hw]
    dsimp only
    linarith
  · rw [if_neg hw]
    dsimp only
    linarith [not_lt.mp hw]

/-- Witness for C2 (amended): a full limiter (3 grants at time 0, window
100) grants the next caller no earlier than time 100. -/
theorem C2_rate_limiter_window_wait_witness :
    (0 : ℚ) + 100 ≤ (acquire 3 100 [0, 0, 0] 0).2 ∧
    (acquireBurst 3 100 0 6).1 = [0, 0, 0, 100, 100, 100] ∧
    (acquireBurst 3 100 0 6).2 = 100 :=
  C2_rate_limiter_window_wait 3 100 [0, 0, 0] 0 0 [0, 0]
    (by norm_num [evictOld, List.dropWhile]) (by norm_num)

/-- C5: evaluation of the rate-limit configuration path. The parser itself
maps `"N/unit"` for the known units and falls back to `(60, 60.0)` on a
malformed string — but an unknown unit keeps the parsed count with a
60-second window (`"7/fortnight"`), and `Settings` declares no
`google_rate_limit` field at all, so the attribute access in
`GoogleSheetsClient.__init__` raises `AttributeError` (outside the parser's
try/except) for every configuration and client construction always fails. -/
theorem C5_rate_limit_parse_and_startup_bug :
    parseRateLimit "60/minute" = (60, 60) ∧
    parseRateLimit "10/second" = (10, 1) ∧
    parseRateLimit "5/hour" = (5, 3600) ∧
    parseRateLimit "garbage" = (60, 60) ∧
    parseRateLimit "1/2/minute" = (60, 60) ∧
    parseRateLimit "7/fortnight" = (7, 60) ∧
    settingsFieldNames.contains "google_rate_limit" = false ∧
    ∀ getValue : String → String,
      clientInitRateLimit getValue = .error "AttributeError: google_rate_limit" := by
  refine ⟨by decide, by decide, by decide, by decide, by decide, by decide,
    by decide, fun getValue => rfl⟩

/-- Counterexample to C6 as stated: a cycle of the background loop, run at a
moment when a stored config is not yet expired, performs only the
config-file cleanup and a fixed 3600-second sleep — it never issues an
upstream fetch for any document, whatever subscriptions or client activity
the claim presupposes. -/
theorem C6_poller_counterexample :
    (periodicCleanupCycle [⟨"g1", some 9999⟩] 100 none).2 =
      [CycleEffect.runCleanup, CycleEffect.sleepFor 3600] ∧
    ∀ d ts, CycleEffect.upstreamFetch d ts ∉
      (periodicCleanupCycle [⟨"g1", some 9999⟩] 100 none).2 := by
  refine ⟨by decide, ?_⟩
  intro d ts
  simp [periodicCleanupCycle, cleanupExpiredConfigs]

/-- C6 (amended): while running, each cycle of the background loop removes
exactly the expired (or unparseable) shared-config entries and keeps the
rest; when the cleanup call raises, the exception is caught and logged and
the cycle still completes with its sleep, so one cycle's failure never
aborts the loop; and no cycle — faulting or not — ever issues an upstream
fetch or writes the spreadsheet cache, each ending with a fixed 3600-second
sleep. -/
theorem C6_cleanup_cycle_behavior (store : List ConfigFile) (now : ℚ) :
    (∀ c, c ∈ (periodicCleanupCycle store now none).1 ↔
      c ∈ store ∧ ∃ e, c.expiresAt = some e ∧ ¬ e < now) ∧
    (∀ msg, (periodicCleanupCycle store now (some msg)).2 =
      [CycleEffect.runCleanup, CycleEffect.logError msg, CycleEffect.sleepFor 3600]) ∧
    (∀ fault d ts,
      CycleEffect.upstreamFetch d ts ∉ (periodicCleanupCycle store now fault).2) ∧
    (∀ fault d g,
      CycleEffect.cacheWrite d g ∉ (periodicCleanupCycle store now fault).2) ∧
    (∀ fault, CycleEffect.sleepFor 3600 ∈ (periodicCleanupCycle store now fault).2) := by
  refine ⟨?_, ?_, ?_, ?_, ?_⟩
  · intro c
    constructor
    · intro hc
      obtain ⟨hmem, hp⟩ := List.mem_filter.mp hc
      refine ⟨hmem, ?_⟩
      cases hme : c.expiresAt with
      | none => rw [hme] at hp; cases hp
      | some e =>
        rw [hme] at hp
        exact ⟨e, rfl, of_decide_eq_true hp⟩
    · rintro ⟨hmem, e, hme, hlt⟩
      apply List.mem_filter.mpr
      refine ⟨hmem, ?_⟩
      rw [hme]
      exact decide_eq_true hlt
  · intro msg
    rfl
  · intro fault d ts
    cases fault with
    | none =>
      by_cases h : 0 < (cleanupExpiredConfigs store now).2 <;>
        simp [periodicCleanupCycle, h]
    | some msg => simp [periodicCleanupCycle]
  · intro fault d g
    cases fault with
    | none =>
      by_cases h : 0 < (cleanupExpiredConfigs store now).2 <;>
        simp [periodicCleanupCycle, h]
    | some msg => simp [periodicCleanupCycle]
  · intro fault
    cases fault with
    | none =>
      by_cases h : 0 < (cleanupExpiredConfigs store now).2 <;>
        simp [periodicCleanupCycle, h]
    | some msg => simp [periodicCleanupCycle]

/-- The constant stand-in for the sha256 hexdigest in the concrete C1 run. -/
def hashC1 : String → String := fun _ => "0123456789abcdef"

/-- The gid-to-title metadata mapping of the C1 document. -/
def metaC1 : List (String × String) := [("0", "Sheet1")]

/-- The upstream grid content of the C1 document's sheet "0":
headers `["Name"]`, one data row `["Alice"]`. -/
def rawC1 : RawData := ⟨[⟨[⟨[⟨[rcell "Name"]⟩, ⟨[rcell "Alice"]⟩]⟩]⟩]⟩

/-- The ETag the C1 run produces (quoted 16-char digest prefix). -/
def etagC1 : String := "\"" ++ takePrefix16 "0123456789abcdef" ++ "\""

/-- C1: evaluation of the end-to-end cache-miss flow at the claim's input.
Conjunct 1: what the data-fetching parse path would yield for the requested
sheet — headers `["Name"]`, rows `[["Alice"]]`. Conjuncts 2-3: the actual
endpoint miss path calls the legacy metadata-only `fetch_spreadsheet`, so it
serves an empty CSV body and the cache afterwards holds sheet "0" with EMPTY
headers and data — the fetched table content is never stored. Conjuncts 4-5:
the parts of the claim that do hold — the served fingerprint is non-empty,
and a second request within TTL supplying exactly that fingerprint receives
"not modified". -/
theorem C1_cache_miss_flow_divergence :
    parseSingleSheet "D" "0" "Sheet1" rawC1 =
      ⟨"D", "0", "Sheet1", ["Name"], [["Alice"]]⟩ ∧
    (endpointGetSheet hashC1 metaC1 [] "D" "0" none 0 60).2 =
      .ok "" etagC1 ∧
    (getSheet hashC1 (endpointGetSheet hashC1 metaC1 [] "D" "0" none 0 60).1
      "D" "0" 1).2 = some ⟨[], [], etagC1⟩ ∧
    etagC1 ≠ "" ∧
    (endpointGetSheet hashC1 metaC1
      (endpointGetSheet hashC1 metaC1 [] "D" "0" none 0 60).1
      "D" "0" (some etagC1) 1 60).2 = .notModified etagC1 := by
  have hne : ¬("\"" ++ takePrefix16 "0123456789abcdef" ++ "\"" = "") := by decide
  refine ⟨by decide, ?_, ?_, by decide, ?_⟩
  · norm_num [endpointGetSheet, getSheet, getSpreadsheet, setSpreadsheet,
      fetchSpreadsheet, getSheetFromSpreadsheet, etagMatches, dictGet, dictSet,
      computeEtag, hashC1, metaC1, etagC1, toCsv, escapeField, joinSep,
      CacheEntry.isExpired]
  · norm_num [endpointGetSheet, getSheet, getSpreadsheet, setSpreadsheet,
      fetchSpreadsheet, getSheetFromSpreadsheet, etagMatches, dictGet, dictSet,
      computeEtag, hashC1, metaC1, etagC1, toCsv, escapeField, joinSep,
      CacheEntry.isExpired]
  · norm_num [endpointGetSheet, getSheet, getSpreadsheet, setSpreadsheet,
      fetchSpreadsheet, getSheetFromSpreadsheet, etagMatches, dictGet, dictSet,
      computeEtag, hashC1, metaC1, etagC1, toCsv, escapeField, joinSep,
      CacheEntry.isExpired, hne]

end OverDraft
